import Mathlib

/-!
# Slide locomotion mode of `ULyraCharacterMovementComponent`

A shallow embedding of `Source/LyraGame/Character/LyraCharacterMovementComponent.cpp`
(`CanStartSlide`, `IsSliding`, `IsMovingOnGround`, `BeginSlide`, `EndSlide`, `PhysCustom`).

Conventions of the embedding:

* `float` values are rationals and float arithmetic is exact (every finite float is a
  rational; rounding is not modelled).
* `int32 Iterations` is an `Int`; the loop only increments it while it is below
  `MaxSimulationIterations`, so it cannot wrap.
* The members of the engine base class that the component calls but does not define
  (`GetSimulationTimeStep`, `MoveAlongFloor`, `FindFloor`, `StartFalling`, ...) are the
  fields of `Host`; the component code is written against an arbitrary `Host`.
* The `while` loop of `PhysCustom` is driven by a fuel argument; running out of fuel is
  `none`, and the loop reports the states in which its substeps started.
-/

namespace Lyra

/-! ## Data model -/

/-- Engine `FVector` with exact components. -/
structure FVector where
  X : ℚ
  Y : ℚ
  Z : ℚ
deriving DecidableEq, Repr

namespace FVector

/-- Engine `FVector::ZeroVector`. -/
def ZeroVector : FVector := ⟨0, 0, 0⟩

/-- Componentwise sum, `operator+`. -/
def add (a b : FVector) : FVector := ⟨a.X + b.X, a.Y + b.Y, a.Z + b.Z⟩

/-- Componentwise difference, `operator-`. -/
def sub (a b : FVector) : FVector := ⟨a.X - b.X, a.Y - b.Y, a.Z - b.Z⟩

/-- Scaling by a scalar, `operator*(float)`. -/
def scale (a : FVector) (k : ℚ) : FVector := ⟨a.X * k, a.Y * k, a.Z * k⟩

/-- Division by a scalar, `operator/(float)`. -/
def divide (a : FVector) (k : ℚ) : FVector := ⟨a.X / k, a.Y / k, a.Z / k⟩

/-- Squared length, `FVector::SizeSquared`. -/
def SizeSquared (a : FVector) : ℚ := a.X * a.X + a.Y * a.Y + a.Z * a.Z

end FVector

/-- Engine `EMovementMode`. The slide is `MOVE_Custom`. -/
inductive EMovementMode where
  | MOVE_None
  | MOVE_Walking
  | MOVE_NavWalking
  | MOVE_Falling
  | MOVE_Swimming
  | MOVE_Flying
  | MOVE_Custom
deriving DecidableEq, Repr

/-- Engine `ENetRole`. -/
inductive ENetRole where
  | ROLE_None
  | ROLE_SimulatedProxy
  | ROLE_AutonomousProxy
  | ROLE_Authority
deriving DecidableEq, Repr

/-- The parts of the engine `FHitResult` that the slide code reads. -/
structure FHitResult where
  Normal : FVector
  ImpactNormal : FVector
  Component : Option Nat
  BoneName : Nat
deriving DecidableEq, Repr

/-- Engine `FFindFloorResult`. -/
structure FFindFloorResult where
  bBlockingHit : Bool
  bWalkableFloor : Bool
  FloorDist : ℚ
  HitResult : FHitResult
deriving DecidableEq, Repr

/-- Engine accessor `FFindFloorResult::IsWalkableFloor`. -/
def FFindFloorResult.IsWalkableFloor (f : FFindFloorResult) : Bool :=
  f.bBlockingHit && f.bWalkableFloor

/-- Engine `FStepDownResult`, the out-parameter of `MoveAlongFloor`. -/
structure FStepDownResult where
  bComputedFloor : Bool
  FloorResult : FFindFloorResult
deriving DecidableEq, Repr

/-- The members of the movement component (and of its owner) that the slide code reads or
writes. `ComponentLocation` is `UpdatedComponent->GetComponentLocation()`; `CharacterOwner`
and `Controller` say whether the respective pointer is non-null; `HasAnimRootMotion` and
`HasOverrideVelocity` are the values of `HasAnimRootMotion()` and of
`CurrentRootMotion.HasOverrideVelocity()`. -/
structure State where
  Velocity : FVector
  Acceleration : FVector
  ComponentLocation : FVector
  MovementMode : EMovementMode
  CustomMovementMode : Nat
  bWantsToCrouch : Bool
  bJustTeleported : Bool
  CurrentFloor : FFindFloorResult
  MovementBase : Option Nat × Nat
  HasAnimRootMotion : Bool
  HasOverrideVelocity : Bool
  CharacterOwner : Bool
  Controller : Bool
  bRunPhysicsWithNoController : Bool
  LocalRole : ENetRole
  SlideMinSpeed : ℚ
  SlideVelocityBonus : ℚ
  SlideGravityForce : ℚ
  SlideFriction : ℚ
deriving DecidableEq, Repr

/-- The engine side of the component: constants and base-class members that
`LyraCharacterMovementComponent.cpp` uses without defining them. Procedures that mutate the
component are state transformers; queries read the state. -/
structure Host where
  /-- Engine constant `MIN_TICK_TIME`. -/
  MIN_TICK_TIME : ℚ
  /-- Member `MaxSimulationIterations`. -/
  MaxSimulationIterations : Int
  /-- Default tolerance of `FVector::GetSafeNormal` (`UE_SMALL_NUMBER`). -/
  SMALL_NUMBER : ℚ
  /-- Math library `FMath::InvSqrt`. -/
  InvSqrt : ℚ → ℚ
  /-- Method `FVector::IsNearlyZero` with its default tolerance. -/
  IsNearlyZero : FVector → Bool
  GetSimulationTimeStep : State → ℚ → Int → ℚ
  /-- Effect of `MaintainHorizontalGroundVelocity` on `Velocity`. -/
  MaintainHorizontalGroundVelocity : FVector → FVector
  GetMaxBrakingDeceleration : State → ℚ
  CalcVelocity : ℚ → ℚ → Bool → ℚ → State → State
  ApplyRootMotionToVelocity : ℚ → State → State
  MoveAlongFloor : FVector → ℚ → State → State × FStepDownResult
  /-- The floor that `FindFloor` writes to its out-parameter. -/
  FindFloor : State → FVector → Bool → FFindFloorResult
  CanWalkOffLedges : State → Bool
  StartFalling : Int → ℚ → ℚ → FVector → FVector → State → State
  ShouldCatchAir : FFindFloorResult → FFindFloorResult → State → Bool
  HandleWalkingOffLedge : FVector → FVector → FVector → ℚ → State → State
  /-- Base-class `UCharacterMovementComponent::IsMovingOnGround`. -/
  Super_IsMovingOnGround : State → Bool
  AdjustFloorHeight : State → State
  SetBase : Option Nat → Nat → State → State

/-! ## Operations of the component -/

/-- Engine `SetMovementMode(NewMovementMode, NewCustomMode)`: the write of the movement
mode and of the custom mode. The notifications that the engine sends after the write
(`OnMovementModeChanged`) are outside the component and are not part of the embedding. -/
def SetMovementMode (NewMovementMode : EMovementMode) (NewCustomMode : Nat) (s : State) :
    State :=
  { s with MovementMode := NewMovementMode, CustomMovementMode := NewCustomMode }

/-- Source `ULyraCharacterMovementComponent::IsSliding`. -/
def IsSliding (s : State) : Bool :=
  decide (s.MovementMode = EMovementMode.MOVE_Custom)

/-- Source `ULyraCharacterMovementComponent::IsMovingOnGround`. -/
def IsMovingOnGround (h : Host) (s : State) : Bool :=
  h.Super_IsMovingOnGround s || IsSliding s

/-- Source `ULyraCharacterMovementComponent::CanStartSlide`:
`Velocity.SizeSquared() > pow(SlideMinSpeed, 2.f)`. -/
def CanStartSlide (s : State) : Bool :=
  decide (s.Velocity.SizeSquared > s.SlideMinSpeed ^ 2)

/-- Source `ULyraCharacterMovementComponent::EndSlide`. -/
def EndSlide (s : State) : State :=
  SetMovementMode EMovementMode.MOVE_Walking 0 { s with bWantsToCrouch := false }

/-! ## The slide integration loop, `PhysCustom` -/

/-- How one execution of the body of the `while` loop of `PhysCustom` leaves it: by
reaching the end of the body (`next`, with the value of `remainingTime`), by `break`
(`brk`), or by `return` (`ret`). -/
inductive Flow where
  | next (s : State) (remainingTime : ℚ)
  | brk (s : State) (remainingTime : ℚ)
  | ret (s : State)
deriving DecidableEq, Repr

/-- The condition of the `while` loop of `PhysCustom`. -/
def loopCondition (h : Host) (s : State) (remainingTime : ℚ) (Iterations : Int) : Bool :=
  decide (remainingTime ≥ h.MIN_TICK_TIME) &&
    decide (Iterations < h.MaxSimulationIterations) &&
    s.CharacterOwner &&
    (s.Controller || s.bRunPhysicsWithNoController ||
      decide (s.LocalRole = ENetRole.ROLE_SimulatedProxy))

/-- The slope vector of the current floor: `FloorSlope = CurrentFloor.HitResult.Normal`
followed by `FloorSlope.Z = 0.f`. -/
def FloorSlope (s : State) : FVector :=
  { s.CurrentFloor.HitResult.Normal with Z := 0 }

/-- The statements `MaintainHorizontalGroundVelocity();` and
`Velocity += FloorSlope * SlideGravityForce * deltaTime;` of the loop body. -/
def applySlopeGravity (h : Host) (deltaTime : ℚ) (s : State) : State :=
  let s1 := { s with Velocity := h.MaintainHorizontalGroundVelocity s.Velocity }
  { s1 with
    Velocity := s1.Velocity.add (((FloorSlope s1).scale s1.SlideGravityForce).scale deltaTime) }

/-- The statements of the loop body from `MaintainHorizontalGroundVelocity();` to the end
of the `if` around `CalcVelocity`: the velocity writes of the component itself. -/
def integrateVelocity (h : Host) (deltaTime : ℚ) (s : State) : State :=
  let s2 := applySlopeGravity h deltaTime s
  let s3 := { s2 with Acceleration := FVector.ZeroVector }
  if !s3.HasAnimRootMotion && !s3.HasOverrideVelocity then
    h.CalcVelocity deltaTime s3.SlideFriction false (h.GetMaxBrakingDeceleration s3) s3
  else s3

/-- The block `// check for ledges` of the loop body. -/
def checkLedges (h : Host) (Iterations : Int) (remainingTime timeTick : ℚ)
    (Delta OldLocation : FVector) (s : State) : State :=
  let bCheckLedges := h.CanWalkOffLedges s
  if bCheckLedges && !s.CurrentFloor.IsWalkableFloor then
    h.StartFalling Iterations remainingTime timeTick Delta OldLocation (EndSlide s)
  else s

/-- The block `// Make velocity reflect actual move` of the loop body. -/
def reconcileVelocity (h : Host) (timeTick : ℚ) (OldLocation : FVector) (s : State) : State :=
  if !s.bJustTeleported && !s.HasAnimRootMotion && !s.HasOverrideVelocity then
    { s with
      Velocity := h.MaintainHorizontalGroundVelocity
        ((s.ComponentLocation.sub OldLocation).divide timeTick) }
  else s

/-- The last statement of the loop body: `if (!CanStartSlide()) SetMovementMode(MOVE_Walking);`. -/
def checkSlideSpeed (s : State) : State :=
  if !CanStartSlide s then SetMovementMode EMovementMode.MOVE_Walking 0 s else s

/-- The default-constructed `FStepDownResult StepDownResult;` of the loop body. -/
def FStepDownResult.init : FStepDownResult :=
  ⟨false, ⟨false, false, 0, ⟨FVector.ZeroVector, FVector.ZeroVector, none, 0⟩⟩⟩

/-- The statements of the loop body from `// Compute move parameters` to the end of
`// update floor`. The result is the state, the value of `remainingTime` and `Delta`. -/
def moveAndUpdateFloor (h : Host) (timeTick remainingTime : ℚ) (s : State) :
    State × ℚ × FVector :=
  let MoveVelocity := s.Velocity
  let Delta := MoveVelocity.scale timeTick
  let bZeroDelta := h.IsNearlyZero Delta
  let moved :=
    if bZeroDelta then (s, FStepDownResult.init) else h.MoveAlongFloor MoveVelocity timeTick s
  let remainingTime := if bZeroDelta then 0 else remainingTime
  let s := moved.1
  let StepDownResult := moved.2
  let s :=
    if StepDownResult.bComputedFloor then { s with CurrentFloor := StepDownResult.FloorResult }
    else { s with CurrentFloor := h.FindFloor s s.ComponentLocation bZeroDelta }
  (s, remainingTime, Delta)

/-- The block `// check if the current surface is valid` of the loop body: `Flow.ret` when
the block returns from `PhysCustom`, `Flow.next` when the body goes on after it. -/
def checkSurface (h : Host) (Iterations : Int) (remainingTime timeTick : ℚ)
    (Delta OldLocation : FVector) (OldFloor : FFindFloorResult) (s : State) : Flow :=
  if s.CurrentFloor.IsWalkableFloor then
    if h.ShouldCatchAir OldFloor s.CurrentFloor s then
      let s := h.HandleWalkingOffLedge OldFloor.HitResult.ImpactNormal OldFloor.HitResult.Normal
        OldLocation timeTick s
      if IsMovingOnGround h s then
        let s := h.StartFalling Iterations remainingTime timeTick Delta OldLocation s
        Flow.ret (EndSlide s)
      else Flow.ret s
    else
      let s := h.AdjustFloorHeight s
      Flow.next
        (h.SetBase s.CurrentFloor.HitResult.Component s.CurrentFloor.HitResult.BoneName s)
        remainingTime
  else Flow.next s remainingTime

/-- The loop body after the block `// check if the current surface is valid`, without the
last statement: nothing more when that block has returned from `PhysCustom`, else the
check for a substep without movement (`break`) and the velocity update. -/
def substepTail (h : Host) (timeTick : ℚ) (OldLocation : FVector) : Flow → Flow
  | Flow.ret s => Flow.ret s
  | Flow.brk s rt => Flow.brk s rt
  | Flow.next s remainingTime =>
    -- if we did not move at all this iteration then abort
    if s.ComponentLocation = OldLocation then Flow.brk s 0
    else Flow.next (reconcileVelocity h timeTick OldLocation s) remainingTime

/-- The loop body of `PhysCustom` up to, and without, its last statement. `Iterations` is
the value of the counter before the body increments it. -/
def substepCore (h : Host) (deltaTime : ℚ) (s : State) (remainingTime : ℚ)
    (Iterations : Int) : Flow :=
  let Iterations := Iterations + 1
  let s := { s with bJustTeleported := false }
  let timeTick := h.GetSimulationTimeStep s remainingTime Iterations
  let remainingTime := remainingTime - timeTick
  -- save current values
  let OldLocation := s.ComponentLocation
  let OldFloor := s.CurrentFloor
  let s := integrateVelocity h deltaTime s
  let s := h.ApplyRootMotionToVelocity deltaTime s
  let m := moveAndUpdateFloor h timeTick remainingTime s
  let s := m.1
  let remainingTime := m.2.1
  let Delta := m.2.2
  let s := checkLedges h Iterations remainingTime timeTick Delta OldLocation s
  substepTail h timeTick OldLocation
    (checkSurface h Iterations remainingTime timeTick Delta OldLocation OldFloor s)

/-- The value of `timeTick` in the substep that starts in `s`. -/
def substepTimeTick (h : Host) (s : State) (remainingTime : ℚ) (Iterations : Int) : ℚ :=
  h.GetSimulationTimeStep { s with bJustTeleported := false } remainingTime (Iterations + 1)

/-- The state, the value of `remainingTime` and `Delta` of the substep that starts in `s`,
at the point where the loop body reaches `// check for ledges`. -/
def substepMoved (h : Host) (deltaTime : ℚ) (s : State) (remainingTime : ℚ)
    (Iterations : Int) : State × ℚ × FVector :=
  let s0 := { s with bJustTeleported := false }
  let timeTick := substepTimeTick h s remainingTime Iterations
  moveAndUpdateFloor h timeTick (remainingTime - timeTick)
    (h.ApplyRootMotionToVelocity deltaTime (integrateVelocity h deltaTime s0))

/-- The state of the substep that starts in `s` right after the block
`// check for ledges` of the loop body. -/
def substepLedges (h : Host) (deltaTime : ℚ) (s : State) (remainingTime : ℚ)
    (Iterations : Int) : State :=
  checkLedges h (Iterations + 1)
    (substepMoved h deltaTime s remainingTime Iterations).2.1
    (substepTimeTick h s remainingTime Iterations)
    (substepMoved h deltaTime s remainingTime Iterations).2.2
    s.ComponentLocation
    (substepMoved h deltaTime s remainingTime Iterations).1

/-- One execution of the loop body of `PhysCustom`. -/
def substep (h : Host) (deltaTime : ℚ) (s : State) (remainingTime : ℚ) (Iterations : Int) :
    Flow :=
  match substepCore h deltaTime s remainingTime Iterations with
  | Flow.next s1 rt => Flow.next (checkSlideSpeed s1) rt
  | Flow.brk s1 rt => Flow.brk s1 rt
  | Flow.ret s1 => Flow.ret s1

/-- The `while` loop of `PhysCustom`. The result is the state in which the loop is left
and the list of the states in which the executed substeps started; `none` when the fuel
runs out before the loop is left. -/
def slideLoop (h : Host) (deltaTime : ℚ) :
    Nat → State → ℚ → Int → Option (State × List State)
  | fuel, s, remainingTime, Iterations =>
    if loopCondition h s remainingTime Iterations then
      match fuel with
      | 0 => none
      | fuel + 1 =>
        match substep h deltaTime s remainingTime Iterations with
        | Flow.next s1 rt =>
          (slideLoop h deltaTime fuel s1 rt (Iterations + 1)).map
            (fun r => (r.1, s :: r.2))
        | Flow.brk s1 _ => some (s1, [s])
        | Flow.ret s1 => some (s1, [s])
    else some (s, [])

/-- Source `ULyraCharacterMovementComponent::PhysCustom(deltaTime, Iterations)`. -/
def PhysCustom (h : Host) (fuel : Nat) (deltaTime : ℚ) (Iterations : Int) (s : State) :
    Option (State × List State) :=
  if deltaTime < h.MIN_TICK_TIME then some (s, [])
  else slideLoop h deltaTime fuel { s with bJustTeleported := false } deltaTime Iterations

/-! ## A reference host

A concrete engine side on which the component code can be evaluated. It follows the
defaults of the engine where they are simple, and is parameterised by the floor under a
location, by `CanWalkOffLedges()` and by `ShouldCatchAir(..)`. -/

/-- Reciprocal square root, exact on the squares of rationals. -/
def refInvSqrt (q : ℚ) : ℚ :=
  if q ≤ 0 then 0 else (Nat.sqrt q.den : ℚ) / (Nat.sqrt q.num.toNat : ℚ)

/-- Engine `GetSimulationTimeStep` with `MaxSimulationTimeStep = 0.05`,
`MaxSimulationIterations = 8` and `MIN_TICK_TIME = 1e-6`. -/
def refTimeStep (_s : State) (RemainingTime : ℚ) (Iterations : Int) : ℚ :=
  let RemainingTime :=
    if RemainingTime > 1 / 20 then
      if Iterations < 8 then min (1 / 20) (RemainingTime * (1 / 2)) else RemainingTime
    else RemainingTime
  max (1 / 1000000) RemainingTime

/-- The reference host. Braking is a single linear friction step, a move is unobstructed,
`StartFalling` switches the mode to `MOVE_Falling`, and no root motion is applied. -/
def refHost (world : FVector → FFindFloorResult) (bCanWalkOffLedges bCatchAir : Bool) : Host where
  MIN_TICK_TIME := 1 / 1000000
  MaxSimulationIterations := 8
  SMALL_NUMBER := 1 / 100000000
  InvSqrt := refInvSqrt
  IsNearlyZero := fun v =>
    decide (|v.X| ≤ 1 / 10000) && decide (|v.Y| ≤ 1 / 10000) && decide (|v.Z| ≤ 1 / 10000)
  GetSimulationTimeStep := refTimeStep
  MaintainHorizontalGroundVelocity := fun v => { v with Z := 0 }
  GetMaxBrakingDeceleration := fun _ => 0
  CalcVelocity := fun DeltaTime Friction _ _ s =>
    { s with Velocity := s.Velocity.sub (s.Velocity.scale (Friction * DeltaTime)) }
  ApplyRootMotionToVelocity := fun _ s => s
  MoveAlongFloor := fun InVelocity DeltaSeconds s =>
    ({ s with ComponentLocation := s.ComponentLocation.add (InVelocity.scale DeltaSeconds) },
      FStepDownResult.init)
  FindFloor := fun _ CapsuleLocation _ => world CapsuleLocation
  CanWalkOffLedges := fun _ => bCanWalkOffLedges
  StartFalling := fun _ _ _ _ _ s => SetMovementMode EMovementMode.MOVE_Falling 0 s
  ShouldCatchAir := fun _ _ _ => bCatchAir
  HandleWalkingOffLedge := fun _ _ _ _ s => s
  Super_IsMovingOnGround := fun s =>
    decide (s.MovementMode = EMovementMode.MOVE_Walking) ||
      decide (s.MovementMode = EMovementMode.MOVE_NavWalking)
  AdjustFloorHeight := fun s => s
  SetBase := fun c b s => { s with MovementBase := (c, b) }

/-- A walkable floor with the given normal. -/
def walkableFloor (Normal : FVector) : FFindFloorResult :=
  ⟨true, true, 0, ⟨Normal, Normal, some 1, 0⟩⟩

/-- No floor: the result of a floor probe that hits nothing. -/
def noFloor : FFindFloorResult :=
  ⟨false, false, 0, ⟨FVector.ZeroVector, FVector.ZeroVector, none, 0⟩⟩

/-- A world that is a horizontal plane. -/
def flatWorld (_p : FVector) : FFindFloorResult := walkableFloor ⟨0, 0, 1⟩

/-- A world that is a plane sloping down towards positive X (normal `(3/5, 0, 4/5)`). -/
def slopeWorld (_p : FVector) : FFindFloorResult := walkableFloor ⟨3 / 5, 0, 4 / 5⟩

/-- A world with a horizontal platform over `X ≤ 100` and nothing beyond its edge. -/
def ledgeWorld (p : FVector) : FFindFloorResult :=
  if p.X ≤ 100 then walkableFloor ⟨0, 0, 1⟩ else noFloor

/-- A sliding character at the origin with the given velocity, standing on the given
floor, with the default slide parameters of the header (250 / 550 / 5000 / 0.6). -/
def slidingAt (Velocity : FVector) (Floor : FFindFloorResult) : State where
  Velocity := Velocity
  Acceleration := FVector.ZeroVector
  ComponentLocation := FVector.ZeroVector
  MovementMode := EMovementMode.MOVE_Custom
  CustomMovementMode := 1
  bWantsToCrouch := true
  bJustTeleported := false
  CurrentFloor := Floor
  MovementBase := (some 1, 0)
  HasAnimRootMotion := false
  HasOverrideVelocity := false
  CharacterOwner := true
  Controller := true
  bRunPhysicsWithNoController := false
  LocalRole := ENetRole.ROLE_Authority
  SlideMinSpeed := 250
  SlideVelocityBonus := 550
  SlideGravityForce := 5000
  SlideFriction := 3 / 5

/-- A slide on the slope while a root-motion source overrides the velocity. -/
def overrideSliding : State :=
  { slidingAt ⟨300, 0, 0⟩ (slopeWorld ⟨0, 0, 0⟩) with HasOverrideVelocity := true }

/-- A slide on flat ground just above the minimum speed. -/
def slowSlide : State := slidingAt ⟨260, 0, 0⟩ (flatWorld ⟨0, 0, 0⟩)

/-- The state `slowSlide` after one substep of a frame of a tenth of a second on the
reference host, before the last statement of the loop body. -/
def slowSlideMoved : State :=
  { slidingAt ⟨1222 / 5, 0, 0⟩ (flatWorld ⟨0, 0, 0⟩) with
    ComponentLocation := ⟨611 / 50, 0, 0⟩ }

/-- A fast slide towards the edge of the platform of `ledgeWorld`. -/
def ledgeSlide : State := slidingAt ⟨3000, 0, 0⟩ (ledgeWorld ⟨0, 0, 0⟩)

/-- The state `ledgeSlide` after the displacement of its first substep, past the edge. -/
def ledgeSlideMoved : State :=
  { slidingAt ⟨2820, 0, 0⟩ noFloor with ComponentLocation := ⟨141, 0, 0⟩ }

/-- A slide down the slope without friction. -/
def frictionlessSlide : State :=
  { slidingAt ⟨300, 0, 0⟩ (slopeWorld ⟨0, 0, 0⟩) with SlideFriction := 0 }

/-- The reference host on a degenerate surface: every displacement leaves the actor where
it was. -/
def stuckHost : Host :=
  { refHost flatWorld true false with
    MoveAlongFloor := fun _ _ s => (s, FStepDownResult.init) }

end Lyra

namespace Lyra

/-! ## Auxiliary facts -/

theorem loopCondition_iterations {h : Host} {s : State} {remainingTime : ℚ} {Iterations : Int}
    (hc : loopCondition h s remainingTime Iterations = true) :
    Iterations < h.MaxSimulationIterations := by
  simp only [loopCondition, Bool.and_eq_true, decide_eq_true_eq] at hc
  exact hc.1.1.2

theorem slideLoop_terminates (h : Host) (deltaTime : ℚ) :
    ∀ (fuel : Nat) (s : State) (remainingTime : ℚ) (Iterations : Int),
      (h.MaxSimulationIterations - Iterations).toNat ≤ fuel →
      ∃ r tr, slideLoop h deltaTime fuel s remainingTime Iterations = some (r, tr) ∧
        tr.length ≤ (h.MaxSimulationIterations - Iterations).toNat := by
  intro fuel
  induction fuel with
  | zero =>
    intro s remainingTime Iterations hf
    have hle : h.MaxSimulationIterations - Iterations ≤ 0 := by
      have := Int.toNat_eq_zero.mp (Nat.le_zero.mp hf)
      exact this
    have hc : loopCondition h s remainingTime Iterations = false := by
      cases hcv : loopCondition h s remainingTime Iterations with
      | false => rfl
      | true => have := loopCondition_iterations hcv; omega
    exact ⟨s, [], by simp [slideLoop, hc], by simp⟩
  | succ fuel ih =>
    intro s remainingTime Iterations hf
    cases hcv : loopCondition h s remainingTime Iterations with
    | false => exact ⟨s, [], by simp [slideLoop, hcv], by simp⟩
    | true =>
      have hlt := loopCondition_iterations hcv
      have hpos : 1 ≤ (h.MaxSimulationIterations - Iterations).toNat := by omega
      cases hs : substep h deltaTime s remainingTime Iterations with
      | next s1 rt =>
        obtain ⟨r, tr, hr, hlen⟩ := ih s1 rt (Iterations + 1) (by omega)
        refine ⟨r, s :: tr, by simp [slideLoop, hcv, hs, hr], ?_⟩
        simp only [List.length_cons]
        omega
      | brk s1 rt => exact ⟨s1, [s], by simp [slideLoop, hcv, hs], by simpa using hpos⟩
      | ret s1 => exact ⟨s1, [s], by simp [slideLoop, hcv, hs], by simpa using hpos⟩

theorem substepCore_eq (h : Host) (deltaTime : ℚ) (s : State) (remainingTime : ℚ)
    (Iterations : Int) :
    substepCore h deltaTime s remainingTime Iterations =
      substepTail h (substepTimeTick h s remainingTime Iterations) s.ComponentLocation
        (checkSurface h (Iterations + 1)
          (substepMoved h deltaTime s remainingTime Iterations).2.1
          (substepTimeTick h s remainingTime Iterations)
          (substepMoved h deltaTime s remainingTime Iterations).2.2
          s.ComponentLocation s.CurrentFloor
          (substepLedges h deltaTime s remainingTime Iterations)) := by
  rfl

theorem slideLoop_more_fuel (h : Host) (deltaTime : ℚ) :
    ∀ (fuel : Nat) (s : State) (remainingTime : ℚ) (Iterations : Int) (r : State × List State),
      slideLoop h deltaTime fuel s remainingTime Iterations = some r →
      slideLoop h deltaTime (fuel + 1) s remainingTime Iterations = some r := by
  intro fuel
  induction fuel with
  | zero =>
    intro s remainingTime Iterations r hr
    cases hcv : loopCondition h s remainingTime Iterations with
    | false =>
      simp only [slideLoop, hcv] at hr ⊢
      exact hr
    | true => simp [slideLoop, hcv] at hr
  | succ fuel ih =>
    intro s remainingTime Iterations r hr
    cases hcv : loopCondition h s remainingTime Iterations with
    | false =>
      simp only [slideLoop, hcv] at hr ⊢
      exact hr
    | true =>
      cases hs : substep h deltaTime s remainingTime Iterations with
      | next s1 rt =>
        rw [slideLoop] at hr ⊢
        simp only [hcv, if_true, hs] at hr ⊢
        cases hrec : slideLoop h deltaTime fuel s1 rt (Iterations + 1) with
        | none => simp [hrec] at hr
        | some r1 =>
          rw [ih s1 rt (Iterations + 1) r1 hrec]
          rw [hrec] at hr
          exact hr
      | brk s1 rt =>
        rw [slideLoop] at hr ⊢
        simp only [hcv, if_true, hs] at hr ⊢
        exact hr
      | ret s1 =>
        rw [slideLoop] at hr ⊢
        simp only [hcv, if_true, hs] at hr ⊢
        exact hr

theorem slideLoop_fuel_le (h : Host) (deltaTime : ℚ) (fuel fuel2 : Nat) (hle : fuel ≤ fuel2)
    (s : State) (remainingTime : ℚ) (Iterations : Int) (r : State × List State)
    (hr : slideLoop h deltaTime fuel s remainingTime Iterations = some r) :
    slideLoop h deltaTime fuel2 s remainingTime Iterations = some r := by
  induction fuel2 with
  | zero =>
    have : fuel = 0 := Nat.le_zero.mp hle
    subst this
    exact hr
  | succ n ih =>
    rcases Nat.lt_or_ge fuel (n + 1) with hlt | hge
    · exact slideLoop_more_fuel h deltaTime n s remainingTime Iterations r
        (ih (Nat.lt_succ_iff.mp hlt))
    · have : fuel = n + 1 := Nat.le_antisymm hle hge
      subst this
      exact hr

theorem checkSurface_catch_air (h : Host) (Iterations : Int) (remainingTime timeTick : ℚ)
    (Delta OldLocation : FVector) (OldFloor : FFindFloorResult) (s : State)
    (hwalk : s.CurrentFloor.IsWalkableFloor = true)
    (hair : h.ShouldCatchAir OldFloor s.CurrentFloor s = true)
    (hground : IsMovingOnGround h
      (h.HandleWalkingOffLedge OldFloor.HitResult.ImpactNormal OldFloor.HitResult.Normal
        OldLocation timeTick s) = true) :
    checkSurface h Iterations remainingTime timeTick Delta OldLocation OldFloor s =
      Flow.ret (EndSlide (h.StartFalling Iterations remainingTime timeTick Delta OldLocation
        (h.HandleWalkingOffLedge OldFloor.HitResult.ImpactNormal OldFloor.HitResult.Normal
          OldLocation timeTick s))) ∧
      (EndSlide (h.StartFalling Iterations remainingTime timeTick Delta OldLocation
        (h.HandleWalkingOffLedge OldFloor.HitResult.ImpactNormal OldFloor.HitResult.Normal
          OldLocation timeTick s))).MovementMode = EMovementMode.MOVE_Walking := by
  constructor
  · simp only [checkSurface, hwalk, hair, hground, if_true]
  · simp [EndSlide, SetMovementMode]

theorem applySlopeGravity_velocity (h : Host) (deltaTime : ℚ) (s : State) :
    (applySlopeGravity h deltaTime s).Velocity =
      (h.MaintainHorizontalGroundVelocity s.Velocity).add
        (((FloorSlope s).scale s.SlideGravityForce).scale deltaTime) := by
  simp [applySlopeGravity, FloorSlope]

/-! ## The claims -/

/-- C3. When `deltaTime` is below `MIN_TICK_TIME` (zero and negative values included),
`PhysCustom` returns at once, for every state, iteration count and fuel: no substep is
executed and the whole state, with velocity, location, movement mode, acceleration,
current floor and crouch request, is the one it started from. -/
theorem PhysCustom_below_min_tick (h : Host) (fuel : Nat) (deltaTime : ℚ) (Iterations : Int)
    (s : State) (hdt : deltaTime < h.MIN_TICK_TIME) :
    PhysCustom h fuel deltaTime Iterations s = some (s, []) ∧
      ∀ r tr, PhysCustom h fuel deltaTime Iterations s = some (r, tr) →
        tr = [] ∧ r.Velocity = s.Velocity ∧ r.ComponentLocation = s.ComponentLocation ∧
          r.MovementMode = s.MovementMode ∧ r.Acceleration = s.Acceleration ∧
          r.CurrentFloor = s.CurrentFloor ∧ r.bWantsToCrouch = s.bWantsToCrouch := by
  have hp : PhysCustom h fuel deltaTime Iterations s = some (s, []) := by
    simp [PhysCustom, hdt]
  refine ⟨hp, ?_⟩
  intro r tr hr
  rw [hp] at hr
  cases hr
  simp

/-- Witness of C3: a frame of zero seconds on the reference host. -/
theorem PhysCustom_below_min_tick_witness :
    (0 : ℚ) < (refHost flatWorld true false).MIN_TICK_TIME ∧
      PhysCustom (refHost flatWorld true false) 0 0 0
        (slidingAt ⟨300, 0, 0⟩ (flatWorld ⟨0, 0, 0⟩)) =
          some (slidingAt ⟨300, 0, 0⟩ (flatWorld ⟨0, 0, 0⟩), []) :=
  ⟨by norm_num [refHost],
    (PhysCustom_below_min_tick (refHost flatWorld true false) 0 0 0
      (slidingAt ⟨300, 0, 0⟩ (flatWorld ⟨0, 0, 0⟩)) (by norm_num [refHost])).1⟩

/-- C4. For every host (time-step choice, floor sensing, displacement, catch-air predicate
and all other collaborators), every `deltaTime`, every starting state and every initial
iteration count, `PhysCustom` leaves its loop once the fuel is at least
`max(0, MaxSimulationIterations - Iterations)`, after at most that many substeps, and
more fuel does not change the result. Hosts whose displacement returns the actor to its
old location are included. -/
theorem PhysCustom_terminates (h : Host) (fuel : Nat) (deltaTime : ℚ) (Iterations : Int)
    (s : State) (hf : (h.MaxSimulationIterations - Iterations).toNat ≤ fuel) :
    ∃ r tr, PhysCustom h fuel deltaTime Iterations s = some (r, tr) ∧
      tr.length ≤ (h.MaxSimulationIterations - Iterations).toNat ∧
      ∀ fuel2, fuel ≤ fuel2 → PhysCustom h fuel2 deltaTime Iterations s = some (r, tr) := by
  unfold PhysCustom
  split
  · exact ⟨s, [], rfl, by simp, fun _ _ => rfl⟩
  · obtain ⟨r, tr, hr, hlen⟩ :=
      slideLoop_terminates h deltaTime fuel { s with bJustTeleported := false } deltaTime
        Iterations hf
    exact ⟨r, tr, hr, hlen, fun fuel2 hle =>
      slideLoop_fuel_le h deltaTime fuel fuel2 hle _ deltaTime Iterations (r, tr) hr⟩

/-- Witness of C4: a frame of a tenth of a second on a surface on which no displacement
moves the actor. -/
theorem PhysCustom_terminates_witness :
    (stuckHost.MaxSimulationIterations - 0).toNat ≤ 8 ∧
      ∃ r tr, PhysCustom stuckHost 8 (1 / 10) 0
          (slidingAt ⟨300, 0, 0⟩ (flatWorld ⟨0, 0, 0⟩)) = some (r, tr) ∧
        tr.length ≤ (stuckHost.MaxSimulationIterations - 0).toNat ∧
        ∀ fuel2, 8 ≤ fuel2 → PhysCustom stuckHost fuel2 (1 / 10) 0
          (slidingAt ⟨300, 0, 0⟩ (flatWorld ⟨0, 0, 0⟩)) = some (r, tr) :=
  ⟨by simp [stuckHost, refHost],
    PhysCustom_terminates stuckHost 8 (1 / 10) 0
      (slidingAt ⟨300, 0, 0⟩ (flatWorld ⟨0, 0, 0⟩)) (by simp [stuckHost, refHost])⟩

/-- C5, counterexample. On the reference host the first substep of a frame of a tenth of a
second, started at 260 units per second on flat ground, reaches its last statement at
244.4 units per second, where `CanStartSlide()` is false: the mode becomes `MOVE_Walking`
but the crouch request stays set, unlike after `EndSlide()`. -/
theorem substep_speed_exit_keeps_crouch_counterexample :
    substepCore (refHost flatWorld true false) (1 / 10) slowSlide (1 / 10) 0 =
        Flow.next slowSlideMoved (1 / 20) ∧
      CanStartSlide slowSlideMoved = false ∧
      substep (refHost flatWorld true false) (1 / 10) slowSlide (1 / 10) 0 =
        Flow.next (SetMovementMode EMovementMode.MOVE_Walking 0 slowSlideMoved) (1 / 20) ∧
      (SetMovementMode EMovementMode.MOVE_Walking 0 slowSlideMoved).MovementMode =
        EMovementMode.MOVE_Walking ∧
      (SetMovementMode EMovementMode.MOVE_Walking 0 slowSlideMoved).bWantsToCrouch = true ∧
      (EndSlide slowSlideMoved).bWantsToCrouch = false := by
  refine ⟨?_, ?_, ?_, ?_, ?_, ?_⟩
  · norm_num [slowSlide, slowSlideMoved, substepCore, substepTail, integrateVelocity, applySlopeGravity,
      FloorSlope, moveAndUpdateFloor, checkLedges, checkSurface, reconcileVelocity,
      SetMovementMode, EndSlide, IsMovingOnGround, IsSliding, refHost,
      refTimeStep, slidingAt, flatWorld, walkableFloor, FStepDownResult.init,
      FFindFloorResult.IsWalkableFloor, FVector.add, FVector.sub, FVector.scale,
      FVector.divide, FVector.SizeSquared, FVector.ZeroVector, abs_le]
  · norm_num [CanStartSlide, slowSlideMoved, slidingAt, FVector.SizeSquared]
  · norm_num [substep, checkSlideSpeed, CanStartSlide,
      slowSlide, slowSlideMoved, substepCore, substepTail, integrateVelocity, applySlopeGravity,
      FloorSlope, moveAndUpdateFloor, checkLedges, checkSurface, reconcileVelocity,
      SetMovementMode, EndSlide, IsMovingOnGround, IsSliding, refHost,
      refTimeStep, slidingAt, flatWorld, walkableFloor, FStepDownResult.init,
      FFindFloorResult.IsWalkableFloor, FVector.add, FVector.sub, FVector.scale,
      FVector.divide, FVector.SizeSquared, FVector.ZeroVector, abs_le]
  · simp [SetMovementMode]
  · simp [SetMovementMode, slowSlideMoved, slidingAt]
  · simp [EndSlide, SetMovementMode]

/-- C5, amended. A substep that reaches its last statement in a state `m` in which
`CanStartSlide()` is false ends in `SetMovementMode(MOVE_Walking)` applied to `m`: the
movement mode is `MOVE_Walking`, and the crouch request, the velocity and the location are
the ones of `m`; the crouch request is not cleared. -/
theorem substep_speed_exit (h : Host) (deltaTime : ℚ) (s : State) (remainingTime : ℚ)
    (Iterations : Int) (m : State) (rt : ℚ)
    (hcore : substepCore h deltaTime s remainingTime Iterations = Flow.next m rt)
    (hslow : CanStartSlide m = false) :
    substep h deltaTime s remainingTime Iterations =
        Flow.next (SetMovementMode EMovementMode.MOVE_Walking 0 m) rt ∧
      (SetMovementMode EMovementMode.MOVE_Walking 0 m).MovementMode =
        EMovementMode.MOVE_Walking ∧
      (SetMovementMode EMovementMode.MOVE_Walking 0 m).bWantsToCrouch = m.bWantsToCrouch ∧
      (SetMovementMode EMovementMode.MOVE_Walking 0 m).Velocity = m.Velocity ∧
      (SetMovementMode EMovementMode.MOVE_Walking 0 m).ComponentLocation =
        m.ComponentLocation := by
  refine ⟨?_, rfl, rfl, rfl, rfl⟩
  simp only [substep, hcore, checkSlideSpeed, hslow]
  rfl

/-- Witness of C5, amended: the first substep of the slide at 260 units per second. -/
theorem substep_speed_exit_witness :
    substep (refHost flatWorld true false) (1 / 10) slowSlide (1 / 10) 0 =
        Flow.next (SetMovementMode EMovementMode.MOVE_Walking 0 slowSlideMoved) (1 / 20) ∧
      (SetMovementMode EMovementMode.MOVE_Walking 0 slowSlideMoved).bWantsToCrouch =
        slowSlideMoved.bWantsToCrouch :=
  have hw := substep_speed_exit (refHost flatWorld true false) (1 / 10) slowSlide (1 / 10) 0
    slowSlideMoved (1 / 20)
    (by
      norm_num [slowSlide, slowSlideMoved, substepCore, substepTail, integrateVelocity, applySlopeGravity,
        FloorSlope, moveAndUpdateFloor, checkLedges, checkSurface, reconcileVelocity,
        SetMovementMode, EndSlide, IsMovingOnGround, IsSliding, refHost,
        refTimeStep, slidingAt, flatWorld, walkableFloor, FStepDownResult.init,
        FFindFloorResult.IsWalkableFloor, FVector.add, FVector.sub, FVector.scale,
        FVector.divide, FVector.SizeSquared, FVector.ZeroVector, abs_le])
    (by norm_num [CanStartSlide, slowSlideMoved, slidingAt, FVector.SizeSquared])
  ⟨hw.1, hw.2.2.1⟩

/-- C6, counterexample. With an override-velocity source active on a floor of normal
`(3/5, 0, 4/5)`, the velocity writes of the component change the horizontal velocity
`(300, 0, 0)` into `(600, 0, 0)` in a frame of a tenth of a second, and this is the
velocity with which the substep ends. -/
theorem integrateVelocity_override_counterexample :
    overrideSliding.HasOverrideVelocity = true ∧
      overrideSliding.Velocity = ⟨300, 0, 0⟩ ∧
      (integrateVelocity (refHost slopeWorld true false) (1 / 10) overrideSliding).Velocity =
        ⟨600, 0, 0⟩ ∧
      (integrateVelocity (refHost slopeWorld true false) (1 / 10) overrideSliding).Velocity ≠
        overrideSliding.Velocity ∧
      substep (refHost slopeWorld true false) (1 / 10) overrideSliding (1 / 10) 0 =
        Flow.next { overrideSliding with
          Velocity := ⟨600, 0, 0⟩, ComponentLocation := ⟨30, 0, 0⟩ } (1 / 20) := by
  refine ⟨rfl, rfl, ?_, ?_, ?_⟩
  · norm_num [overrideSliding, integrateVelocity, applySlopeGravity, FloorSlope, refHost,
      slidingAt, slopeWorld, walkableFloor, FVector.add, FVector.scale]
  · norm_num [overrideSliding, integrateVelocity, applySlopeGravity, FloorSlope, refHost,
      slidingAt, slopeWorld, walkableFloor, FVector.add, FVector.scale]
  · norm_num [substep, checkSlideSpeed, CanStartSlide,
      overrideSliding, substepCore, substepTail, integrateVelocity, applySlopeGravity,
      FloorSlope, moveAndUpdateFloor, checkLedges, checkSurface, reconcileVelocity,
      SetMovementMode, EndSlide, IsMovingOnGround, IsSliding, refHost,
      refTimeStep, slidingAt, slopeWorld, walkableFloor, FStepDownResult.init,
      FFindFloorResult.IsWalkableFloor, FVector.add, FVector.sub, FVector.scale,
      FVector.divide, FVector.SizeSquared, FVector.ZeroVector, abs_le]

/-- C6, amended. In a substep in which animation root motion or an override-velocity
source is active, the component applies neither `CalcVelocity` nor the velocity update
from the actual displacement, but it still applies `MaintainHorizontalGroundVelocity` and
adds the slope-gravity term `(n.x, n.y, 0) * SlideGravityForce * deltaTime`; its velocity
writes leave the velocity as it was when the floor normal has no horizontal component
and the velocity is already horizontal. -/
theorem integrateVelocity_override (h : Host) (deltaTime : ℚ) (s : State)
    (hov : (s.HasAnimRootMotion || s.HasOverrideVelocity) = true) :
    integrateVelocity h deltaTime s =
        { applySlopeGravity h deltaTime s with Acceleration := FVector.ZeroVector } ∧
      (integrateVelocity h deltaTime s).Velocity =
        (h.MaintainHorizontalGroundVelocity s.Velocity).add
          (((FloorSlope s).scale s.SlideGravityForce).scale deltaTime) ∧
      (∀ (timeTick : ℚ) (OldLocation : FVector),
        reconcileVelocity h timeTick OldLocation s = s) ∧
      (s.CurrentFloor.HitResult.Normal.X = 0 → s.CurrentFloor.HitResult.Normal.Y = 0 →
        h.MaintainHorizontalGroundVelocity s.Velocity = s.Velocity →
        (integrateVelocity h deltaTime s).Velocity = s.Velocity) := by
  have hflags : (!s.HasAnimRootMotion && !s.HasOverrideVelocity) = false := by
    cases ha : s.HasAnimRootMotion <;> cases ho : s.HasOverrideVelocity <;>
      simp [ha, ho] at hov ⊢
  have hint : integrateVelocity h deltaTime s =
      { applySlopeGravity h deltaTime s with Acceleration := FVector.ZeroVector } := by
    have hflags2 : (!(applySlopeGravity h deltaTime s).HasAnimRootMotion &&
        !(applySlopeGravity h deltaTime s).HasOverrideVelocity) = false := hflags
    simp only [integrateVelocity]
    rw [if_neg]
    simpa using hflags2
  have hvel : (integrateVelocity h deltaTime s).Velocity =
      (h.MaintainHorizontalGroundVelocity s.Velocity).add
        (((FloorSlope s).scale s.SlideGravityForce).scale deltaTime) := by
    rw [hint]
    exact applySlopeGravity_velocity h deltaTime s
  refine ⟨hint, hvel, ?_, ?_⟩
  · intro timeTick OldLocation
    simp only [reconcileVelocity]
    rw [if_neg]
    cases hj : s.bJustTeleported <;> simp [hflags]
  · intro hx hy hm
    rw [hvel, hm]
    rcases hV : s.Velocity with ⟨x, y, z⟩
    simp [FloorSlope, FVector.add, FVector.scale, hx, hy]

/-- Witness of C6, amended: the overridden slide on the slope, and the same slide on flat
ground. -/
theorem integrateVelocity_override_witness :
    (integrateVelocity (refHost slopeWorld true false) (1 / 10) overrideSliding).Velocity =
        ((refHost slopeWorld true false).MaintainHorizontalGroundVelocity
          overrideSliding.Velocity).add
          (((FloorSlope overrideSliding).scale overrideSliding.SlideGravityForce).scale
            (1 / 10)) ∧
      (integrateVelocity (refHost flatWorld true false) (1 / 10)
          { overrideSliding with CurrentFloor := flatWorld ⟨0, 0, 0⟩ }).Velocity =
        overrideSliding.Velocity :=
  ⟨(integrateVelocity_override (refHost slopeWorld true false) (1 / 10) overrideSliding
      rfl).2.1,
    (integrateVelocity_override (refHost flatWorld true false) (1 / 10)
      { overrideSliding with CurrentFloor := flatWorld ⟨0, 0, 0⟩ } rfl).2.2.2
      rfl rfl rfl⟩

/-- C7, counterexample. On the platform with an edge the first substep carries the actor
past the edge, where no floor is found. With `CanWalkOffLedges()` false the substep ends
still sliding and crouched: neither `EndSlide` nor `StartFalling` has run. With
`CanWalkOffLedges()` true the same substep ends in `MOVE_Falling` with the crouch request
cleared. -/
theorem substep_ledge_counterexample :
    (refHost ledgeWorld false false).CanWalkOffLedges
        (substepMoved (refHost ledgeWorld false false) (1 / 10) ledgeSlide (1 / 10) 0).1 =
        false ∧
      (substepMoved (refHost ledgeWorld false false) (1 / 10) ledgeSlide
        (1 / 10) 0).1.CurrentFloor.IsWalkableFloor = false ∧
      substep (refHost ledgeWorld false false) (1 / 10) ledgeSlide (1 / 10) 0 =
        Flow.next ledgeSlideMoved (1 / 20) ∧
      ledgeSlideMoved.MovementMode = EMovementMode.MOVE_Custom ∧
      ledgeSlideMoved.bWantsToCrouch = true ∧
      substep (refHost ledgeWorld true false) (1 / 10) ledgeSlide (1 / 10) 0 =
        Flow.next { ledgeSlideMoved with
          MovementMode := EMovementMode.MOVE_Falling, CustomMovementMode := 0,
          bWantsToCrouch := false } (1 / 20) := by
  refine ⟨rfl, ?_, ?_, rfl, rfl, ?_⟩
  · norm_num [substepMoved, substepTimeTick, ledgeSlide, integrateVelocity,
      applySlopeGravity, FloorSlope, moveAndUpdateFloor, refHost, refTimeStep, slidingAt,
      ledgeWorld, noFloor, walkableFloor, FStepDownResult.init,
      FFindFloorResult.IsWalkableFloor, FVector.add, FVector.sub, FVector.scale,
      FVector.ZeroVector, abs_le]
  · norm_num [substep, checkSlideSpeed, CanStartSlide,
      ledgeSlide, ledgeSlideMoved, substepCore, substepTail, integrateVelocity, applySlopeGravity,
      FloorSlope, moveAndUpdateFloor, checkLedges, checkSurface, reconcileVelocity,
      SetMovementMode, EndSlide, IsMovingOnGround, IsSliding, refHost,
      refTimeStep, slidingAt, ledgeWorld, noFloor, walkableFloor, FStepDownResult.init,
      FFindFloorResult.IsWalkableFloor, FVector.add, FVector.sub, FVector.scale,
      FVector.divide, FVector.SizeSquared, FVector.ZeroVector, abs_le]
  · norm_num [substep, checkSlideSpeed, CanStartSlide,
      ledgeSlide, ledgeSlideMoved, substepCore, substepTail, integrateVelocity, applySlopeGravity,
      FloorSlope, moveAndUpdateFloor, checkLedges, checkSurface, reconcileVelocity,
      SetMovementMode, EndSlide, IsMovingOnGround, IsSliding, refHost,
      refTimeStep, slidingAt, ledgeWorld, noFloor, walkableFloor, FStepDownResult.init,
      FFindFloorResult.IsWalkableFloor, FVector.add, FVector.sub, FVector.scale,
      FVector.divide, FVector.SizeSquared, FVector.ZeroVector, abs_le]

/-- C7, amended. In a substep in which ledge-walking is allowed (`CanWalkOffLedges()` is
true) and the floor found after the displacement is not walkable, the block that checks
for ledges calls `EndSlide()` and then `StartFalling` with the iteration count, the
remaining time, the time tick, the displacement and the old location of the substep. When
ledge-walking is disallowed, or the floor is walkable, the block calls neither and leaves
the state as it was after the floor update. -/
theorem substepLedges_eq (h : Host) (deltaTime : ℚ) (s : State) (remainingTime : ℚ)
    (Iterations : Int) :
    (h.CanWalkOffLedges (substepMoved h deltaTime s remainingTime Iterations).1 = true →
      (substepMoved h deltaTime s remainingTime Iterations).1.CurrentFloor.IsWalkableFloor =
        false →
      substepLedges h deltaTime s remainingTime Iterations =
        h.StartFalling (Iterations + 1)
          (substepMoved h deltaTime s remainingTime Iterations).2.1
          (substepTimeTick h s remainingTime Iterations)
          (substepMoved h deltaTime s remainingTime Iterations).2.2
          s.ComponentLocation
          (EndSlide (substepMoved h deltaTime s remainingTime Iterations).1)) ∧
      (h.CanWalkOffLedges (substepMoved h deltaTime s remainingTime Iterations).1 = false ∨
          (substepMoved h deltaTime s remainingTime Iterations).1.CurrentFloor.IsWalkableFloor =
            true →
        substepLedges h deltaTime s remainingTime Iterations =
          (substepMoved h deltaTime s remainingTime Iterations).1) := by
  constructor
  · intro hcan hfloor
    simp only [substepLedges, checkLedges, hcan, hfloor, Bool.not_false, Bool.and_self,
      if_true]
  · intro hno
    have hcond : (h.CanWalkOffLedges (substepMoved h deltaTime s remainingTime Iterations).1 &&
        !(substepMoved h deltaTime s remainingTime Iterations).1.CurrentFloor.IsWalkableFloor) =
        false := by
      rcases hno with hno | hno <;> simp [hno]
    simp only [substepLedges, checkLedges, hcond]
    rfl

/-- Witness of C7, amended: the substep past the edge of the platform, with ledge-walking
allowed and with ledge-walking disallowed. -/
theorem substepLedges_eq_witness :
    substepLedges (refHost ledgeWorld true false) (1 / 10) ledgeSlide (1 / 10) 0 =
        (refHost ledgeWorld true false).StartFalling (0 + 1)
          (substepMoved (refHost ledgeWorld true false) (1 / 10) ledgeSlide (1 / 10) 0).2.1
          (substepTimeTick (refHost ledgeWorld true false) ledgeSlide (1 / 10) 0)
          (substepMoved (refHost ledgeWorld true false) (1 / 10) ledgeSlide (1 / 10) 0).2.2
          ledgeSlide.ComponentLocation
          (EndSlide
            (substepMoved (refHost ledgeWorld true false) (1 / 10) ledgeSlide (1 / 10) 0).1) ∧
      substepLedges (refHost ledgeWorld false false) (1 / 10) ledgeSlide (1 / 10) 0 =
        (substepMoved (refHost ledgeWorld false false) (1 / 10) ledgeSlide (1 / 10) 0).1 :=
  ⟨(substepLedges_eq (refHost ledgeWorld true false) (1 / 10) ledgeSlide (1 / 10) 0).1 rfl
      (by
        norm_num [substepMoved, substepTimeTick, ledgeSlide, integrateVelocity,
          applySlopeGravity, FloorSlope, moveAndUpdateFloor, refHost, refTimeStep, slidingAt,
          ledgeWorld, noFloor, walkableFloor, FStepDownResult.init,
          FFindFloorResult.IsWalkableFloor, FVector.add, FVector.sub, FVector.scale,
          FVector.ZeroVector, abs_le]),
    (substepLedges_eq (refHost ledgeWorld false false) (1 / 10) ledgeSlide (1 / 10) 0).2
      (Or.inl rfl)⟩

/-- C8. On the reference host with a walkable floor and `ShouldCatchAir` true, the actor
is still moving on ground after the walking-off-ledge hook, the substep returns from
`PhysCustom`, and the state it returns with has movement mode `MOVE_Walking`, not
`MOVE_Falling`: `EndSlide()` runs after `StartFalling`. -/
theorem substep_catch_air_ends_walking :
    (substepMoved (refHost flatWorld true true) (1 / 10)
        (slidingAt ⟨300, 0, 0⟩ (flatWorld ⟨0, 0, 0⟩)) (1 / 10) 0).1.CurrentFloor.IsWalkableFloor =
        true ∧
      IsMovingOnGround (refHost flatWorld true true)
        (substepMoved (refHost flatWorld true true) (1 / 10)
          (slidingAt ⟨300, 0, 0⟩ (flatWorld ⟨0, 0, 0⟩)) (1 / 10) 0).1 = true ∧
      substep (refHost flatWorld true true) (1 / 10)
          (slidingAt ⟨300, 0, 0⟩ (flatWorld ⟨0, 0, 0⟩)) (1 / 10) 0 =
        Flow.ret { slidingAt ⟨282, 0, 0⟩ (flatWorld ⟨0, 0, 0⟩) with
          ComponentLocation := ⟨141 / 10, 0, 0⟩,
          MovementMode := EMovementMode.MOVE_Walking, CustomMovementMode := 0,
          bWantsToCrouch := false } := by
  refine ⟨?_, ?_, ?_⟩
  · norm_num [substepMoved, substepTimeTick, integrateVelocity,
      applySlopeGravity, FloorSlope, moveAndUpdateFloor, refHost, refTimeStep, slidingAt,
      flatWorld, walkableFloor, FStepDownResult.init,
      FFindFloorResult.IsWalkableFloor, FVector.add, FVector.sub, FVector.scale,
      FVector.ZeroVector, abs_le]
  · norm_num [IsMovingOnGround, IsSliding, substepMoved, substepTimeTick, integrateVelocity,
      applySlopeGravity, FloorSlope, moveAndUpdateFloor, refHost, refTimeStep, slidingAt,
      flatWorld, walkableFloor, FStepDownResult.init,
      FFindFloorResult.IsWalkableFloor, FVector.add, FVector.sub, FVector.scale,
      FVector.ZeroVector, abs_le]
  · norm_num [substep, checkSlideSpeed, CanStartSlide,
      substepCore, substepTail, integrateVelocity, applySlopeGravity,
      FloorSlope, moveAndUpdateFloor, checkLedges, checkSurface, reconcileVelocity,
      SetMovementMode, EndSlide, IsMovingOnGround, IsSliding, refHost,
      refTimeStep, slidingAt, flatWorld, walkableFloor, FStepDownResult.init,
      FFindFloorResult.IsWalkableFloor, FVector.add, FVector.sub, FVector.scale,
      FVector.divide, FVector.SizeSquared, FVector.ZeroVector, abs_le]

/-- C9. On the reference host a frame of a tenth of a second, started in `MOVE_Custom` at
260 units per second on flat ground, runs two substeps: the first ends below the minimum
speed and sets `MOVE_Walking`, and the second starts, and runs, in `MOVE_Walking`. -/
theorem PhysCustom_substep_after_mode_change :
    slowSlide.MovementMode = EMovementMode.MOVE_Custom ∧
      PhysCustom (refHost flatWorld true false) 8 (1 / 10) 0 slowSlide =
        some ({ slidingAt ⟨28717 / 125, 0, 0⟩ (flatWorld ⟨0, 0, 0⟩) with
            ComponentLocation := ⟨59267 / 2500, 0, 0⟩,
            MovementMode := EMovementMode.MOVE_Walking, CustomMovementMode := 0 },
          [slowSlide, SetMovementMode EMovementMode.MOVE_Walking 0 slowSlideMoved]) ∧
      (SetMovementMode EMovementMode.MOVE_Walking 0 slowSlideMoved).MovementMode =
        EMovementMode.MOVE_Walking := by
  refine ⟨rfl, ?_, rfl⟩
  norm_num [PhysCustom, slideLoop, loopCondition, substep, checkSlideSpeed, CanStartSlide,
    slowSlide, slowSlideMoved, substepCore, substepTail, integrateVelocity, applySlopeGravity,
    FloorSlope, moveAndUpdateFloor, checkLedges, checkSurface, reconcileVelocity,
    SetMovementMode, EndSlide, IsMovingOnGround, IsSliding, refHost,
    refTimeStep, slidingAt, flatWorld, walkableFloor, FStepDownResult.init,
    FFindFloorResult.IsWalkableFloor, FVector.add, FVector.sub, FVector.scale,
    FVector.divide, FVector.SizeSquared, FVector.ZeroVector, abs_le]

/-- C10. On the reference host a frame of a tenth of a second on the slope of normal
`(3/5, 0, 4/5)` runs two substeps of a twentieth of a second each. Each of them adds
`(3/5, 0, 0) * 5000 * (1/10) = (300, 0, 0)` to the velocity, the term of the whole frame
time, not `(150, 0, 0)`, the term of its own time tick: without friction the velocity
goes from 300 to 600 to 900 units per second within the frame. -/
theorem PhysCustom_gravity_uses_frame_time :
    substepTimeTick (refHost slopeWorld true false) frictionlessSlide (1 / 10) 0 = 1 / 20 ∧
      ((FloorSlope frictionlessSlide).scale frictionlessSlide.SlideGravityForce).scale (1 / 20) =
        ⟨150, 0, 0⟩ ∧
      (applySlopeGravity (refHost slopeWorld true false) (1 / 10)
          { frictionlessSlide with bJustTeleported := false }).Velocity =
        frictionlessSlide.Velocity.add ⟨300, 0, 0⟩ ∧
      PhysCustom (refHost slopeWorld true false) 8 (1 / 10) 0 frictionlessSlide =
        some ({ frictionlessSlide with
            Velocity := ⟨900, 0, 0⟩, ComponentLocation := ⟨75, 0, 0⟩ },
          [frictionlessSlide,
            { frictionlessSlide with
              Velocity := ⟨600, 0, 0⟩, ComponentLocation := ⟨30, 0, 0⟩ }]) := by
  refine ⟨?_, ?_, ?_, ?_⟩
  · norm_num [substepTimeTick, refHost, refTimeStep]
  · norm_num [FloorSlope, frictionlessSlide, slidingAt, slopeWorld, walkableFloor,
      FVector.scale]
  · norm_num [applySlopeGravity, FloorSlope, frictionlessSlide, slidingAt, slopeWorld,
      walkableFloor, refHost, FVector.scale, FVector.add]
  · norm_num [PhysCustom, slideLoop, loopCondition, substep, checkSlideSpeed, CanStartSlide,
      frictionlessSlide, substepCore, substepTail, integrateVelocity, applySlopeGravity,
      FloorSlope, moveAndUpdateFloor, checkLedges, checkSurface, reconcileVelocity,
      SetMovementMode, EndSlide, IsMovingOnGround, IsSliding, refHost,
      refTimeStep, slidingAt, slopeWorld, walkableFloor, FStepDownResult.init,
      FFindFloorResult.IsWalkableFloor, FVector.add, FVector.sub, FVector.scale,
      FVector.divide, FVector.SizeSquared, FVector.ZeroVector, abs_le]

end Lyra
